import Mathlib

/-!
Verification of the AKIR Restaurant backend (Express + outbound-mail dispatch).

The repository contains several near-duplicate variants of the same server.
The primary embedding below follows the multi-provider variant
(`src/unnamed/part_002`): provider selection (SendGrid / Resend / SMTP),
the `sendEmail` dispatcher, the three transport adapters, and the two
business handlers (`/api/reservations`, `/api/contact`).  A second, smaller
embedding (namespace `P1`) follows the SMTP/simulation variant
(`src/unnamed/part_001`), whose reservation handler catches send failures.

JavaScript dynamic values are modelled by `JSValue` (truthiness,
nullish coalescing and string interpolation are made explicit); network
effects are modelled by passing the response each outbound call would
receive as an explicit argument.
-/

namespace Akir

/-- A JavaScript value as it can appear in a parsed JSON request body
(objects and arrays are not needed at the leaf positions the handlers read). -/
inductive JSValue where
  | undefined
  | null
  | bool (b : Bool)
  | num (n : Int)
  | str (s : String)
deriving DecidableEq, Repr

/-- JavaScript truthiness (`!v` in the validation guards negates this). -/
def truthy : JSValue → Bool
  | .undefined => false
  | .null => false
  | .bool b => b
  | .num n => n != 0
  | .str s => s != ""

/-- Whether a value is `null` or `undefined` — the test used by the `??`
(nullish-coalescing) operator. -/
def isNullish : JSValue → Bool
  | .undefined => true
  | .null => true
  | _ => false

/-- JavaScript string conversion, as performed by template-literal
interpolation. -/
def jsToString : JSValue → String
  | .undefined => "undefined"
  | .null => "null"
  | .bool b => if b then "true" else "false"
  | .num n => toString n
  | .str s => s

/-- `String(x)` applied to an environment variable that may be unset:
`String(undefined)` is the string `"undefined"` (part_002 line 37). -/
def jsStringOfEnv : Option String → String
  | none => "undefined"
  | some s => s

/-- ASCII case-folding of one character, as `toLowerCase` performs on the
characters environment variables are made of. -/
def lowerChar (ch : Char) : Char :=
  if 'A' ≤ ch ∧ ch ≤ 'Z' then Char.ofNat (ch.toNat + 32) else ch

/-- JavaScript `String.prototype.toLowerCase` (restricted to ASCII, which
covers every value compared against `'true'`). -/
def jsToLowerCase (s : String) : String :=
  ⟨s.data.map lowerChar⟩

/-- The environment-derived configuration of the part_002 server
(lines 24–39).  Variables read with `|| ''` are plain strings where the
empty string means "unset"; `SMTP_SECURE` is kept as the raw optional
environment value because the code applies `String(...)` to it. -/
structure EnvConfig where
  sendgridKey : String
  resendKey : String
  smtpHost : String
  smtpPort : Nat
  smtpSecureEnv : Option String
  smtpUser : String
  smtpPass : String
  mailFrom : String
  mailTo : String
deriving DecidableEq, Repr

/-- The three transport adapters. -/
inductive Provider where
  | sendgrid
  | resend
  | smtp
deriving DecidableEq, Repr

/-- part_002 lines 26–29: `SENDGRID_API_KEY ? 'sendgrid' : RESEND_API_KEY ?
'resend' : 'smtp'`. -/
def PROVIDER (c : EnvConfig) : Provider :=
  if c.sendgridKey != "" then .sendgrid
  else if c.resendKey != "" then .resend
  else .smtp

/-- part_002 line 53: `smtpTransporter` is created only when
`PROVIDER === 'smtp' && SMTP_USER && SMTP_PASS`; otherwise it stays `null`. -/
def smtpTransporterActive (c : EnvConfig) : Bool :=
  PROVIDER c == .smtp && c.smtpUser != "" && c.smtpPass != ""

/-- The adapter that is actually able to send for this process: the selected
`PROVIDER`, except that the SMTP branch has no transporter (and every send
through it fails) unless both credentials are present. -/
def activeAdapter (c : EnvConfig) : Option Provider :=
  match PROVIDER c with
  | .sendgrid => some .sendgrid
  | .resend => some .resend
  | .smtp => if smtpTransporterActive c then some .smtp else none

/-- part_002 line 37:
`String(process.env.SMTP_SECURE).toLowerCase() === 'true' || SMTP_PORT === 465`. -/
def SMTP_SECURE (c : EnvConfig) : Bool :=
  jsToLowerCase (jsStringOfEnv c.smtpSecureEnv) == "true" || c.smtpPort == 465

/-- The options the part_002 server passes to
`nodemailer.createTransport` (lines 54–67). -/
structure TransporterOpts where
  host : String
  port : Nat
  secure : Bool
  requireTLS : Bool
  pool : Bool
  maxConnections : Nat
  maxMessages : Nat
  connectionTimeout : Nat
  greetingTimeout : Nat
  socketTimeout : Nat
deriving DecidableEq, Repr

/-- part_002 lines 54–67: `secure: SMTP_SECURE, requireTLS: !SMTP_SECURE`,
pooled with two connections and the three fixed timeouts. -/
def smtpTransporterOpts (c : EnvConfig) : TransporterOpts :=
  { host := c.smtpHost
    port := c.smtpPort
    secure := SMTP_SECURE c
    requireTLS := !SMTP_SECURE c
    pool := true
    maxConnections := 2
    maxMessages := 50
    connectionTimeout := 15000
    greetingTimeout := 10000
    socketTimeout := 20000 }

/-! ### SMTP connection behaviour (for the security-mode claim)

The transporter options above are handed to the mail library; the claim
about STARTTLS concerns the library's documented contract for
`secure` / `requireTLS`, which is outside this repository. -/

/-- How an SMTP session begins, and whether authentication happens. -/
inductive SmtpConnOutcome where
  | implicitTLSThenAuth
  | starttlsThenAuth
  | failedNoAuth
  | plaintextAuth
deriving DecidableEq, Repr

/-- Modelled from the spec: the mail library's documented connection
behaviour for the `secure` / `requireTLS` transporter options (library code,
not part of this repository).  `secure` means implicit TLS from connection
start; otherwise the connection starts in plaintext and a STARTTLS upgrade
is attempted before authentication; with `requireTLS` set, a failed upgrade
aborts the session with no authentication. -/
def smtpConnect (o : TransporterOpts) (starttlsOk : Bool) : SmtpConnOutcome :=
  if o.secure then .implicitTLSThenAuth
  else if starttlsOk then .starttlsThenAuth
  else if o.requireTLS then .failedNoAuth
  else .plaintextAuth

/-! ### Transport adapters and the `sendEmail` dispatcher (part_002) -/

/-- The response an HTTPS call receives: status code and body text. -/
structure HttpResp where
  status : Nat
  body : String
deriving DecidableEq, Repr

/-- `Response.ok` of the fetch API: status in the inclusive range 200–299. -/
def respOk (r : HttpResp) : Bool :=
  200 ≤ r.status && r.status ≤ 299

/-- part_002 lines 74–101: POST to the SendGrid API; on `!resp.ok` throw
an error carrying the status and the response text, otherwise succeed.
The response the network delivers is the explicit argument. -/
def sendWithSendGrid (resp : HttpResp) : Except String Unit :=
  if respOk resp then .ok ()
  else .error ("SendGrid " ++ toString resp.status ++ ": " ++ resp.body)

/-- part_002 lines 103–118: POST to the Resend API, same failure policy. -/
def sendWithResend (resp : HttpResp) : Except String Unit :=
  if respOk resp then .ok ()
  else .error ("Resend " ++ toString resp.status ++ ": " ++ resp.body)

/-- The network outcomes one dispatcher call could observe: the HTTPS
response of each provider, and the result `transporter.sendMail` would
produce. -/
structure NetEnv where
  sendgridResp : HttpResp
  resendResp : HttpResp
  smtpResult : Except String Unit
deriving Repr

/-- part_002 lines 120–128: `sendWithSMTP` throws `'SMTP not configured'`
when `smtpTransporter` is `null`, else performs `transporter.sendMail`. -/
def sendWithSMTP (c : EnvConfig) (net : NetEnv) : Except String Unit :=
  if smtpTransporterActive c then net.smtpResult
  else .error "SMTP not configured"

/-- part_002 lines 130–134: the dispatcher delegates to the adapter chosen
by `PROVIDER`. -/
def sendEmail (c : EnvConfig) (net : NetEnv) : Except String Unit :=
  match PROVIDER c with
  | .sendgrid => sendWithSendGrid net.sendgridResp
  | .resend => sendWithResend net.resendResp
  | .smtp => sendWithSMTP c net

/-! ### Request bodies -/

/-- The fields the reservation handler destructures from `req.body`
(a key absent from the JSON object destructures to `undefined`). -/
structure ReservationFields where
  name : JSValue
  email : JSValue
  phone : JSValue
  date : JSValue
  time : JSValue
  guests : JSValue
  message : JSValue
  specialRequests : JSValue
deriving DecidableEq, Repr

/-- All fields `undefined`: what destructuring `{}` yields. -/
def emptyReservationFields : ReservationFields :=
  ⟨.undefined, .undefined, .undefined, .undefined,
   .undefined, .undefined, .undefined, .undefined⟩

/-- The fields the contact handler destructures from `req.body`. -/
structure ContactFields where
  name : JSValue
  email : JSValue
  subject : JSValue
  message : JSValue
deriving DecidableEq, Repr

/-- All fields `undefined`. -/
def emptyContactFields : ContactFields :=
  ⟨.undefined, .undefined, .undefined, .undefined⟩

/-- A request body as the handler sees it: absent (`undefined`/`null`),
a non-object primitive, or a JSON object carrying the fields. -/
inductive ReqBody (α : Type) where
  | missing
  | primitive (v : JSValue)
  | obj (f : α)

/-- `req.body || {}` followed by destructuring: an object yields its
fields; an absent body falls back to `{}`; destructuring a primitive
(whether or not `|| {}` replaced it) also yields `undefined` for every
field the handlers read. -/
def getFields {α : Type} (d : α) : ReqBody α → α
  | .obj f => f
  | _ => d

/-- part_002 line 184: `specialRequests ?? message ?? ''`. -/
def notesOf (f : ReservationFields) : JSValue :=
  if isNullish f.specialRequests then
    (if isNullish f.message then .str "" else f.message)
  else f.specialRequests

/-! ### Message composition (part_002 reservation and contact handlers) -/

/-- One outbound message as handed to `sendEmail`: recipient (still a
JavaScript value: `MAIL_TO` is a string, the customer copy uses the
submitted `email`), subject and HTML body. -/
structure OutboundMessage where
  «to» : JSValue
  subject : JSValue
  html : String
deriving DecidableEq, Repr

/-- part_002 line 186. -/
def adminSubject (f : ReservationFields) : String :=
  "New Reservation Request - " ++ jsToString f.name

/-- part_002 lines 187–194, with `fmtDate` standing for
`new Date(date).toLocaleDateString()` (locale- and clock-library-dependent,
so kept abstract). -/
def adminHtml (fmtDate : JSValue → String) (f : ReservationFields) : String :=
  let notes := notesOf f
  "\n      <h2>New Reservation Request - AKIR Restaurant</h2>\n      <h3>Customer</h3>\n      <p><b>Name:</b> "
    ++ jsToString f.name ++ "<br/><b>Email:</b> " ++ jsToString f.email
    ++ "<br/><b>Phone:</b> " ++ jsToString f.phone
    ++ "</p>\n      <h3>Reservation</h3>\n      <p><b>Date:</b> "
    ++ fmtDate f.date ++ "<br/><b>Time:</b> " ++ jsToString f.time
    ++ "<br/><b>Guests:</b> " ++ jsToString f.guests ++ "</p>\n      "
    ++ (if truthy notes then "<p><b>Notes:</b> " ++ jsToString notes ++ "</p>" else "")
    ++ "\n    "

/-- part_002 line 196. -/
def customerSubject : String :=
  "Reservation Request Received - AKIR Restaurant"

/-- part_002 lines 197–205. -/
def customerHtml (fmtDate : JSValue → String) (f : ReservationFields) : String :=
  let notes := notesOf f
  "\n      <h2>Thanks, " ++ jsToString f.name
    ++ "!</h2>\n      <p>We received your reservation request.</p>\n      <p><b>Date:</b> "
    ++ fmtDate f.date ++ " |\n         <b>Time:</b> " ++ jsToString f.time
    ++ " |\n         <b>Guests:</b> " ++ jsToString f.guests ++ "</p>\n      "
    ++ (if truthy notes then "<p><b>Your notes:</b> " ++ jsToString notes ++ "</p>" else "")
    ++ "\n      <p>We will contact you within 24 hours to confirm.</p>\n    "

/-- The message the reservation handler sends to the operator inbox
(part_002 line 208). -/
def reservationAdminMsg (c : EnvConfig) (fmtDate : JSValue → String)
    (f : ReservationFields) : OutboundMessage :=
  ⟨.str c.mailTo, .str (adminSubject f), adminHtml fmtDate f⟩

/-- The confirmation the reservation handler sends to the submitted
customer email (part_002 line 209). -/
def reservationCustomerMsg (fmtDate : JSValue → String)
    (f : ReservationFields) : OutboundMessage :=
  ⟨f.email, .str customerSubject, customerHtml fmtDate f⟩

/-- `${subject || 'General Inquiry'}` as interpolated by the contact
handler (part_002 lines 228 and 232). -/
def contactSubjectDisplay (f : ContactFields) : String :=
  if truthy f.subject then jsToString f.subject else "General Inquiry"

/-- part_002 lines 229–234: the contact notification body; the submitted
message is interpolated verbatim inside the preformatted block. -/
def contactHtml (f : ContactFields) : String :=
  ("\n        <h2>New Contact Form Submission</h2>\n        <p><b>Name:</b> "
    ++ jsToString f.name ++ "<br/><b>Email:</b> " ++ jsToString f.email
    ++ "</p>\n        <p><b>Subject:</b> " ++ contactSubjectDisplay f
    ++ "</p>\n        ")
    ++ ("<pre style=\"white-space:pre-wrap\">" ++ jsToString f.message ++ "</pre>")
    ++ "\n      "

/-- The single message the contact handler sends (part_002 lines 226–235). -/
def contactMsg (c : EnvConfig) (f : ContactFields) : OutboundMessage :=
  ⟨.str c.mailTo, .str ("Contact Form: " ++ contactSubjectDisplay f), contactHtml f⟩

/-! ### HTTP handlers (part_002) -/

/-- The JSON response a handler returns, with its HTTP status. -/
structure HttpResponse where
  status : Nat
  success : Bool
  message : String
  reservationId : Option String
deriving DecidableEq, Repr

/-- A handler run: the response plus the list of send attempts it issued,
in order. -/
structure HandlerOutcome where
  resp : HttpResponse
  sends : List OutboundMessage
deriving DecidableEq, Repr

/-- part_002 lines 177–218, `app.post('/api/reservations')`.  `now` stands
for `Date.now()`; `net` gives the network outcome each issued message
would observe.  Both sends are issued before the `Promise.all` is awaited;
if either rejects, the rejection reaches the handler's `catch`, which
answers 500 "Server error". -/
def reservationHandler (c : EnvConfig) (fmtDate : JSValue → String) (now : Nat)
    (net : OutboundMessage → NetEnv) (body : ReqBody ReservationFields) :
    HandlerOutcome :=
  let f := getFields emptyReservationFields body
  if !truthy f.name || !truthy f.email || !truthy f.phone
      || !truthy f.date || !truthy f.time || !truthy f.guests then
    ⟨⟨400, false, "Missing required fields", none⟩, []⟩
  else
    let m1 := reservationAdminMsg c fmtDate f
    let m2 := reservationCustomerMsg fmtDate f
    match sendEmail c (net m1), sendEmail c (net m2) with
    | .ok _, .ok _ =>
        ⟨⟨200, true, "Reservation request received",
          some ("AKIR-" ++ toString now)⟩, [m1, m2]⟩
    | _, _ =>
        ⟨⟨500, false, "Server error", none⟩, [m1, m2]⟩

/-- part_002 lines 220–242, `app.post('/api/contact')`. -/
def contactHandler (c : EnvConfig) (net : OutboundMessage → NetEnv)
    (body : ReqBody ContactFields) : HandlerOutcome :=
  let f := getFields emptyContactFields body
  if !truthy f.name || !truthy f.email || !truthy f.message then
    ⟨⟨400, false, "Missing required fields", none⟩, []⟩
  else
    let m := contactMsg c f
    match sendEmail c (net m) with
    | .ok _ => ⟨⟨200, true, "Contact form submitted successfully", none⟩, [m]⟩
    | .error _ => ⟨⟨500, false, "Server error", none⟩, [m]⟩

/-! ### Timing of the reservation fan-in (`await Promise.all`, line 207)

`Promise.all([p1, p2])` fulfills once both promises have fulfilled, but
rejects as soon as the first rejection settles, without waiting for the
other promise. -/

/-- A promise outcome: the time at which it settles and its result. -/
structure Settled where
  t : Nat
  result : Except String Unit
deriving Repr

/-- JavaScript `Promise.all` over two promises: fulfilled at the later of
the two fulfillment times when both fulfill; rejected at the time of the
earliest rejection otherwise. -/
def promiseAll2 (a b : Settled) : Settled :=
  match a.result, b.result with
  | .ok _, .ok _ => ⟨max a.t b.t, .ok ()⟩
  | .error e, .ok _ => ⟨a.t, .error e⟩
  | .ok _, .error e => ⟨b.t, .error e⟩
  | .error e1, .error e2 =>
      if a.t ≤ b.t then ⟨a.t, .error e1⟩ else ⟨b.t, .error e2⟩

/-- The time at which the reservation handler's `await Promise.all`
completes — i.e. the earliest time the handler can respond — given when
each of its two send attempts settles. -/
def reservationSettleTime (s1 s2 : Settled) : Nat :=
  (promiseAll2 s1 s2).t

end Akir

namespace Akir.P1

/-!
### The SMTP/simulation variant (`src/unnamed/part_001`)

This variant has a single nodemailer transporter (or none), no `sendEmail`
dispatcher, and — unlike part_002 — wraps its `Promise.all` in an inner
`try`/`catch` so that a send failure is logged and the handler still
responds success.
-/

/-- part_001 lines 25–33 (resolved values of the environment reads). -/
structure P1Config where
  smtpHost : String
  smtpPort : Nat
  smtpSecureEnv : Option String
  smtpUser : String
  smtpPass : String
  mailFrom : String
  mailTo : String
deriving DecidableEq, Repr

/-- part_001 line 47: `Boolean(SMTP_USER && SMTP_PASS)`; the transporter
exists exactly when this holds (line 48). -/
def hasEmail (c : P1Config) : Bool :=
  c.smtpUser != "" && c.smtpPass != ""

/-- A nodemailer message of this variant (`from`, `to`, subject, HTML). -/
structure P1Mail where
  «from» : String
  «to» : JSValue
  subject : String
  html : String
deriving DecidableEq, Repr

/-- part_001 lines 129–141. -/
def p1AdminMail (c : P1Config) (fmtDate : JSValue → String)
    (f : ReservationFields) : P1Mail :=
  let notes := notesOf f
  { «from» := c.mailFrom
    «to» := .str c.mailTo
    subject := "New Reservation Request - " ++ jsToString f.name
    html :=
      "\n        <h2>New Reservation Request - AKIR Restaurant</h2>\n        <h3>Customer</h3>\n        <p><b>Name:</b> "
        ++ jsToString f.name ++ "<br/><b>Email:</b> " ++ jsToString f.email
        ++ "<br/><b>Phone:</b> " ++ jsToString f.phone
        ++ "</p>\n        <h3>Reservation</h3>\n        <p><b>Date:</b> "
        ++ fmtDate f.date ++ "<br/><b>Time:</b> " ++ jsToString f.time
        ++ "<br/><b>Guests:</b> " ++ jsToString f.guests ++ "</p>\n        "
        ++ (if truthy notes then "<p><b>Notes:</b> " ++ jsToString notes ++ "</p>" else "")
        ++ "\n      " }

/-- part_001 lines 143–156. -/
def p1CustomerMail (c : P1Config) (fmtDate : JSValue → String)
    (f : ReservationFields) : P1Mail :=
  let notes := notesOf f
  { «from» := c.mailFrom
    «to» := f.email
    subject := "Reservation Request Received - AKIR Restaurant"
    html :=
      "\n        <h2>Thanks, " ++ jsToString f.name
        ++ "!</h2>\n        <p>We received your reservation request.</p>\n        <p><b>Date:</b> "
        ++ fmtDate f.date ++ " |\n           <b>Time:</b> " ++ jsToString f.time
        ++ " |\n           <b>Guests:</b> " ++ jsToString f.guests ++ "</p>\n        "
        ++ (if truthy notes then "<p><b>Your notes:</b> " ++ jsToString notes ++ "</p>" else "")
        ++ "\n        <p>We will contact you within 24 hours to confirm.</p>\n      " }

/-- A run of a part_001 handler: the response and the send attempts the
transporter performed (none in simulation mode). -/
structure P1Outcome where
  resp : HttpResponse
  sends : List P1Mail
deriving DecidableEq, Repr

/-- part_001 lines 120–175, `app.post('/api/reservations')`: after
validation, if the transporter exists both mails are sent inside an inner
`try`/`catch` whose `catch` only logs, and the handler responds success
whatever `sendResult` said; without a transporter the send is only
simulated (logged) and the handler responds success with no attempt. -/
def p1ReservationHandler (c : P1Config) (fmtDate : JSValue → String) (now : Nat)
    (sendResult : P1Mail → Except String Unit) (body : ReqBody ReservationFields) :
    P1Outcome :=
  let f := getFields emptyReservationFields body
  if !truthy f.name || !truthy f.email || !truthy f.phone
      || !truthy f.date || !truthy f.time || !truthy f.guests then
    ⟨⟨400, false, "Missing required fields", none⟩, []⟩
  else
    let m1 := p1AdminMail c fmtDate f
    let m2 := p1CustomerMail c fmtDate f
    let sends := if hasEmail c then [m1, m2] else []
    let _logged := (sendResult m1, sendResult m2)
    ⟨⟨200, true, "Reservation request received",
      some ("AKIR-" ++ toString now)⟩, sends⟩

/-- part_001 lines 184–194. -/
def p1ContactMail (c : P1Config) (f : ContactFields) : P1Mail :=
  { «from» := c.mailFrom
    «to» := .str c.mailTo
    subject := "Contact Form: " ++ contactSubjectDisplay f
    html :=
      "\n        <h2>New Contact Form Submission</h2>\n        <p><b>Name:</b> "
        ++ jsToString f.name ++ "<br/><b>Email:</b> " ++ jsToString f.email
        ++ "</p>\n        <p><b>Subject:</b> " ++ contactSubjectDisplay f
        ++ "</p>\n        <pre style=\"white-space:pre-wrap\">" ++ jsToString f.message
        ++ "</pre>\n      " }

/-- part_001 lines 177–212, `app.post('/api/contact')`: same decoupling —
a send failure is caught, logged, and the response is success either way;
with no transporter the send is simulated. -/
def p1ContactHandler (c : P1Config) (sendResult : P1Mail → Except String Unit)
    (body : ReqBody ContactFields) : P1Outcome :=
  let f := getFields emptyContactFields body
  if !truthy f.name || !truthy f.email || !truthy f.message then
    ⟨⟨400, false, "Missing required fields", none⟩, []⟩
  else
    let m := p1ContactMail c f
    let sends := if hasEmail c then [m] else []
    let _logged := sendResult m
    ⟨⟨200, true, "Contact form submitted successfully", none⟩, sends⟩

end Akir.P1

namespace Akir

/-! ### Concrete fixtures used by the witnesses -/

/-- A configuration with only a SendGrid key. -/
def cfgSG : EnvConfig :=
  ⟨"SG_KEY", "", "smtp.gmail.com", 587, none, "", "",
   "AKIR Restaurant <akirrestaurants@gmail.com>", "akirrestaurants@gmail.com"⟩

/-- A configuration with both provider API keys. -/
def cfgAB : EnvConfig :=
  ⟨"SG_KEY", "RS_KEY", "smtp.gmail.com", 587, none, "", "",
   "AKIR Restaurant <akirrestaurants@gmail.com>", "akirrestaurants@gmail.com"⟩

/-- A configuration with only SMTP credentials. -/
def cfgSMTP : EnvConfig :=
  ⟨"", "", "smtp.gmail.com", 587, none, "user@gmail.com", "apppass",
   "AKIR Restaurant <akirrestaurants@gmail.com>", "akirrestaurants@gmail.com"⟩

/-- A configuration with no credentials at all. -/
def cfgNone : EnvConfig :=
  ⟨"", "", "smtp.gmail.com", 587, none, "", "",
   "AKIR Restaurant <akirrestaurants@gmail.com>", "akirrestaurants@gmail.com"⟩

/-- A part_001 configuration with no SMTP credentials (simulation mode). -/
def p1NoEmail : P1.P1Config :=
  ⟨"smtp.gmail.com", 587, none, "", "", "from@x.com", "akirrestaurants@gmail.com"⟩

/-- The valid reservation body of the spec's end-to-end scenario. -/
def annBody : ReservationFields :=
  ⟨.str "Ann", .str "ann@x.com", .str "555-1", .str "2025-01-01",
   .str "19:00", .num 2, .undefined, .undefined⟩

/-- The valid contact body of the spec's end-to-end scenario. -/
def bobBody : ContactFields :=
  ⟨.str "Bob", .str "bob@x.com", .undefined, .str "Hi"⟩

/-- A fixed date formatter standing in for `toLocaleDateString`. -/
def fmtD : JSValue → String := fun _ => "1/1/2025"

/-- A network in which every outbound call succeeds. -/
def netOK : OutboundMessage → NetEnv :=
  fun _ => ⟨⟨202, ""⟩, ⟨200, ""⟩, .ok ()⟩

/-- A network in which every outbound call fails. -/
def netBad : OutboundMessage → NetEnv :=
  fun _ => ⟨⟨500, "oops"⟩, ⟨500, "oops"⟩, .error "socket hang up"⟩

/-! ### Claims -/

/-- **C2**: the active mail provider is selected deterministically from the
configuration in a fixed priority order: a present SendGrid key selects
SendGrid (so A wins even when both keys are present); else a present Resend
key selects Resend; else SMTP is active exactly when both SMTP credentials
are present; otherwise no adapter is active. -/
theorem C2_provider_priority (c : EnvConfig) :
    (c.sendgridKey ≠ "" → activeAdapter c = some .sendgrid) ∧
    (c.sendgridKey = "" → c.resendKey ≠ "" → activeAdapter c = some .resend) ∧
    (c.sendgridKey = "" → c.resendKey = "" → c.smtpUser ≠ "" → c.smtpPass ≠ "" →
      activeAdapter c = some .smtp) ∧
    (c.sendgridKey = "" → c.resendKey = "" → (c.smtpUser = "" ∨ c.smtpPass = "") →
      activeAdapter c = none) := by
  refine ⟨?_, ?_, ?_, ?_⟩
  · intro h
    simp [activeAdapter, PROVIDER, h]
  · intro h1 h2
    simp [activeAdapter, PROVIDER, h1, h2]
  · intro h1 h2 h3 h4
    simp [activeAdapter, PROVIDER, smtpTransporterActive, h1, h2, h3, h4]
  · intro h1 h2 h3
    rcases h3 with h3 | h3 <;>
      simp [activeAdapter, PROVIDER, smtpTransporterActive, h1, h2, h3]

/-- Witness for C2 at concrete configurations: both keys present selects
SendGrid; SMTP-only credentials select SMTP; no credentials select no
adapter. -/
theorem C2_witness :
    activeAdapter cfgAB = some .sendgrid ∧
    activeAdapter cfgSMTP = some .smtp ∧
    activeAdapter cfgNone = none :=
  ⟨(C2_provider_priority cfgAB).1 (by decide),
   (C2_provider_priority cfgSMTP).2.2.1 rfl rfl (by decide) (by decide),
   (C2_provider_priority cfgNone).2.2.2 rfl rfl (Or.inl rfl)⟩

/-- **C3**: each program variant applies one single degraded-mode policy
throughout.  In part_002, with no API key and incomplete SMTP credentials,
every `sendEmail` call fails immediately with the `'SMTP not configured'`
reason, whatever the network would answer (fail-closed).  In part_001, with
no credentials, both handlers log the would-be send and report success with
zero send attempts (simulate).  Neither program mixes the two policies. -/
theorem C3_degraded_mode_policy :
    (∀ (c : EnvConfig) (net : NetEnv), c.sendgridKey = "" → c.resendKey = "" →
      ¬(c.smtpUser ≠ "" ∧ c.smtpPass ≠ "") →
      sendEmail c net = .error "SMTP not configured") ∧
    (∀ (c1 : P1.P1Config) (fmt : JSValue → String) (now : Nat)
      (sr : P1.P1Mail → Except String Unit) (f : ReservationFields),
      P1.hasEmail c1 = false →
      (P1.p1ReservationHandler c1 fmt now sr (.obj f)).sends = [] ∧
      (truthy f.name = true → truthy f.email = true → truthy f.phone = true →
        truthy f.date = true → truthy f.time = true → truthy f.guests = true →
        (P1.p1ReservationHandler c1 fmt now sr (.obj f)).resp.success = true)) ∧
    (∀ (c1 : P1.P1Config) (sr : P1.P1Mail → Except String Unit) (g : ContactFields),
      P1.hasEmail c1 = false →
      (P1.p1ContactHandler c1 sr (.obj g)).sends = [] ∧
      (truthy g.name = true → truthy g.email = true → truthy g.message = true →
        (P1.p1ContactHandler c1 sr (.obj g)).resp.success = true)) := by
  refine ⟨?_, ?_, ?_⟩
  · intro c net h1 h2 h3
    have hp : PROVIDER c = .smtp := by simp [PROVIDER, h1, h2]
    have ht : smtpTransporterActive c = false := by
      rcases not_and_or.mp h3 with h | h <;>
        simp [smtpTransporterActive, not_ne_iff.mp h]
    simp [sendEmail, hp, sendWithSMTP, ht]
  · intro c1 fmt now sr f h
    constructor
    · simp [P1.p1ReservationHandler, getFields, h]
      split <;> rfl
    · intro h1 h2 h3 h4 h5 h6
      simp [P1.p1ReservationHandler, getFields, h1, h2, h3, h4, h5, h6]
  · intro c1 sr g h
    constructor
    · simp [P1.p1ContactHandler, getFields, h]
      split <;> rfl
    · intro h1 h2 h3
      simp [P1.p1ContactHandler, getFields, h1, h2, h3]

/-- Witness for C3 at concrete inputs: the unconfigured part_002 dispatcher
fails closed even on a healthy network, and the unconfigured part_001
handlers report success with zero attempts. -/
theorem C3_witness :
    sendEmail cfgNone ⟨⟨200, ""⟩, ⟨200, ""⟩, .ok ()⟩ = .error "SMTP not configured" ∧
    (P1.p1ReservationHandler p1NoEmail fmtD 7 (fun _ => .error "x") (.obj annBody)).sends = [] ∧
    (P1.p1ReservationHandler p1NoEmail fmtD 7 (fun _ => .error "x") (.obj annBody)).resp.success = true ∧
    (P1.p1ContactHandler p1NoEmail (fun _ => .error "x") (.obj bobBody)).sends = [] ∧
    (P1.p1ContactHandler p1NoEmail (fun _ => .error "x") (.obj bobBody)).resp.success = true := by
  refine ⟨C3_degraded_mode_policy.1 cfgNone _ rfl rfl (by decide), ?_, ?_, ?_, ?_⟩
  · exact (C3_degraded_mode_policy.2.1 p1NoEmail fmtD 7 _ annBody rfl).1
  · exact (C3_degraded_mode_policy.2.1 p1NoEmail fmtD 7 _ annBody rfl).2
      rfl rfl rfl rfl rfl (by decide)
  · exact (C3_degraded_mode_policy.2.2 p1NoEmail _ bobBody rfl).1
  · exact (C3_degraded_mode_policy.2.2 p1NoEmail _ bobBody rfl).2 rfl rfl rfl

/-- **C4**: a reservation request missing any of name, email, phone, date,
time, guests — and a contact request missing any of name, email, message —
gets a 400 response carrying the `'Missing required fields'` reason, with
zero send attempts issued. -/
theorem C4_validation_no_sends :
    (∀ (c : EnvConfig) (fmt : JSValue → String) (now : Nat)
      (net : OutboundMessage → NetEnv) (f : ReservationFields),
      (f.name = .undefined ∨ f.email = .undefined ∨ f.phone = .undefined ∨
        f.date = .undefined ∨ f.time = .undefined ∨ f.guests = .undefined) →
      reservationHandler c fmt now net (.obj f) =
        ⟨⟨400, false, "Missing required fields", none⟩, []⟩) ∧
    (∀ (c : EnvConfig) (net : OutboundMessage → NetEnv) (g : ContactFields),
      (g.name = .undefined ∨ g.email = .undefined ∨ g.message = .undefined) →
      contactHandler c net (.obj g) =
        ⟨⟨400, false, "Missing required fields", none⟩, []⟩) := by
  constructor
  · intro c fmt now net f h
    rcases h with h | h | h | h | h | h <;>
      simp [reservationHandler, getFields, h, truthy]
  · intro c net g h
    rcases h with h | h | h <;>
      simp [contactHandler, getFields, h, truthy]

/-- Witness for C4: a reservation body with no phone and a contact body
with no message are both rejected with 400 and no sends. -/
theorem C4_witness :
    reservationHandler cfgSG fmtD 7 netOK
        (.obj { annBody with phone := .undefined }) =
      ⟨⟨400, false, "Missing required fields", none⟩, []⟩ ∧
    contactHandler cfgSG netOK (.obj { bobBody with message := .undefined }) =
      ⟨⟨400, false, "Missing required fields", none⟩, []⟩ :=
  ⟨C4_validation_no_sends.1 cfgSG fmtD 7 netOK _ (Or.inr (Or.inr (Or.inl rfl))),
   C4_validation_no_sends.2 cfgSG netOK _ (Or.inr (Or.inr rfl))⟩

/-- **C1** (counterexample): in the part_002 variant the claim fails — with
a SendGrid-configured transport and a network on which both send attempts
fail, the reservation handler for a fully valid request answers HTTP 500
with `success:false` and no reservation reference: the `Promise.all`
rejection reaches the outer `catch`, so a send failure does change the
HTTP response. -/
theorem C1_counterexample :
    (reservationHandler cfgSG fmtD 7 netBad (.obj annBody)).resp.status = 500 ∧
    (reservationHandler cfgSG fmtD 7 netBad (.obj annBody)).resp.success = false ∧
    (reservationHandler cfgSG fmtD 7 netBad (.obj annBody)).resp.reservationId = none := by
  refine ⟨rfl, rfl, rfl⟩

/-- **C1** (amended): the handler responds with overall success and a
reservation reference once both send attempts have *succeeded*; whether a
send failure changes the response depends on the variant.  In part_002 a
failed send makes the handler answer 500 "Server error" (see the
counterexample), while in the part_001 variant the send failures are caught
and logged and the handler responds success with a reservation reference
regardless of the send outcomes. -/
theorem C1_reservation_ack_policy (c : EnvConfig) (fmt : JSValue → String)
    (now : Nat) (net : OutboundMessage → NetEnv) (f : ReservationFields)
    (h1 : truthy f.name = true) (h2 : truthy f.email = true)
    (h3 : truthy f.phone = true) (h4 : truthy f.date = true)
    (h5 : truthy f.time = true) (h6 : truthy f.guests = true) :
    ((∀ m, sendEmail c (net m) = .ok ()) →
      reservationHandler c fmt now net (.obj f) =
        ⟨⟨200, true, "Reservation request received", some ("AKIR-" ++ toString now)⟩,
         [reservationAdminMsg c fmt f, reservationCustomerMsg fmt f]⟩) ∧
    (∀ (c1 : P1.P1Config) (sr : P1.P1Mail → Except String Unit),
      (P1.p1ReservationHandler c1 fmt now sr (.obj f)).resp =
        ⟨200, true, "Reservation request received", some ("AKIR-" ++ toString now)⟩) := by
  constructor
  · intro hall
    simp [reservationHandler, getFields, h1, h2, h3, h4, h5, h6, hall]
  · intro c1 sr
    simp [P1.p1ReservationHandler, getFields, h1, h2, h3, h4, h5, h6]

/-- Witness for the amended C1: on an all-success network the part_002
handler acknowledges with a reference, and the part_001 handler
acknowledges even though every send fails. -/
theorem C1_witness :
    reservationHandler cfgSG fmtD 7 netOK (.obj annBody) =
      ⟨⟨200, true, "Reservation request received", some "AKIR-7"⟩,
       [reservationAdminMsg cfgSG fmtD annBody, reservationCustomerMsg fmtD annBody]⟩ ∧
    (P1.p1ReservationHandler p1NoEmail fmtD 7 (fun _ => .error "boom") (.obj annBody)).resp =
      ⟨200, true, "Reservation request received", some "AKIR-7"⟩ :=
  ⟨(C1_reservation_ack_policy cfgSG fmtD 7 netOK annBody
      rfl rfl rfl rfl rfl (by decide)).1 (fun _ => rfl),
   (C1_reservation_ack_policy cfgSG fmtD 7 netOK annBody
      rfl rfl rfl rfl rfl (by decide)).2 p1NoEmail (fun _ => .error "boom")⟩

/-- **C5** (counterexample): the fan-in does short-circuit.  If the first
send attempt rejects at time 1 while the second only settles at time 5,
the handler's `await Promise.all` completes at time 1 — the handler
responds before both attempts have settled, refuting "waits for both
attempts to settle ... with no short-circuit on the first failure". -/
theorem C5_counterexample :
    reservationSettleTime ⟨1, .error "boom"⟩ ⟨5, .ok ()⟩ = 1 ∧
    ¬ (Settled.t ⟨5, .ok ()⟩ ≤ reservationSettleTime ⟨1, .error "boom"⟩ ⟨5, .ok ()⟩) := by
  refine ⟨rfl, by decide⟩

/-- **C5** (amended): for every valid reservation request exactly two send
attempts are issued — one addressed to the configured operator inbox and
one to the customer's submitted email — both started before either is
awaited; the handler waits for both attempts only when both succeed
(`Promise.all` fulfills at the later settle time), but on a failure it
responds at the first rejection, possibly before the other attempt has
settled. -/
theorem C5_two_sends_fanin (c : EnvConfig) (fmt : JSValue → String)
    (now : Nat) (net : OutboundMessage → NetEnv) (f : ReservationFields)
    (h1 : truthy f.name = true) (h2 : truthy f.email = true)
    (h3 : truthy f.phone = true) (h4 : truthy f.date = true)
    (h5 : truthy f.time = true) (h6 : truthy f.guests = true) :
    ((reservationHandler c fmt now net (.obj f)).sends =
        [reservationAdminMsg c fmt f, reservationCustomerMsg fmt f] ∧
      (reservationAdminMsg c fmt f).to = .str c.mailTo ∧
      (reservationCustomerMsg fmt f).to = f.email) ∧
    (∀ s1 s2 : Settled, s1.result = .ok () → s2.result = .ok () →
      reservationSettleTime s1 s2 = max s1.t s2.t) := by
  refine ⟨⟨?_, rfl, rfl⟩, ?_⟩
  · rcases hr1 : sendEmail c (net (reservationAdminMsg c fmt f)) with e1 | u1 <;>
      rcases hr2 : sendEmail c (net (reservationCustomerMsg fmt f)) with e2 | u2 <;>
      simp [reservationHandler, getFields, h1, h2, h3, h4, h5, h6, hr1, hr2]
  · intro s1 s2 hs1 hs2
    rcases s1 with ⟨t1, r1⟩
    rcases s2 with ⟨t2, r2⟩
    simp only at hs1 hs2
    subst hs1
    subst hs2
    rfl

/-- Witness for the amended C5: the concrete valid request issues exactly
the two messages (operator inbox first, customer second), and with both
attempts fulfilling at times 1 and 5 the fan-in completes at time 5. -/
theorem C5_witness :
    (reservationHandler cfgSG fmtD 7 netOK (.obj annBody)).sends =
      [reservationAdminMsg cfgSG fmtD annBody, reservationCustomerMsg fmtD annBody] ∧
    reservationSettleTime ⟨1, .ok ()⟩ ⟨5, .ok ()⟩ = max 1 5 :=
  ⟨(C5_two_sends_fanin cfgSG fmtD 7 netOK annBody
      rfl rfl rfl rfl rfl (by decide)).1.1,
   (C5_two_sends_fanin cfgSG fmtD 7 netOK annBody
      rfl rfl rfl rfl rfl (by decide)).2 ⟨1, .ok ()⟩ ⟨5, .ok ()⟩ rfl rfl⟩

/-- **C6** (counterexample): the security mode is not derived from the port
alone.  With `SMTP_SECURE=true` in the environment and port 587, the
transporter is created with `secure = true` (implicit TLS) and
`requireTLS = false`, so a non-465 port does not imply a
plaintext-then-STARTTLS connection. -/
theorem C6_counterexample :
    (smtpTransporterOpts ⟨"", "", "smtp.gmail.com", 587, some "true", "u", "p",
        "f@x.com", "t@x.com"⟩).secure = true ∧
    (smtpTransporterOpts ⟨"", "", "smtp.gmail.com", 587, some "true", "u", "p",
        "f@x.com", "t@x.com"⟩).requireTLS = false ∧
    (587 : Nat) ≠ 465 := by
  refine ⟨by decide, by decide, by decide⟩

/-- **C6** (amended): the SMTP security mode is derived from the configured
port *and* the explicit `SMTP_SECURE` flag: port 465 always selects
implicit TLS from connection start; with the flag unset, any other port
selects a connection that starts unencrypted with a required STARTTLS
upgrade before authentication (`requireTLS`), and if the upgrade fails the
session is aborted with no plaintext authentication. -/
theorem C6_smtp_security_mode (c : EnvConfig) :
    (c.smtpPort = 465 →
      (smtpTransporterOpts c).secure = true ∧
      (∀ ok : Bool, smtpConnect (smtpTransporterOpts c) ok = .implicitTLSThenAuth)) ∧
    (c.smtpSecureEnv = none → c.smtpPort ≠ 465 →
      (smtpTransporterOpts c).secure = false ∧
      (smtpTransporterOpts c).requireTLS = true ∧
      smtpConnect (smtpTransporterOpts c) true = .starttlsThenAuth ∧
      smtpConnect (smtpTransporterOpts c) false = .failedNoAuth) := by
  constructor
  · intro h
    have hs : SMTP_SECURE c = true := by simp [SMTP_SECURE, h]
    refine ⟨by simp [smtpTransporterOpts, hs], ?_⟩
    intro ok
    simp [smtpConnect, smtpTransporterOpts, hs]
  · intro henv hport
    have hs : SMTP_SECURE c = false := by
      simp [SMTP_SECURE, henv, jsStringOfEnv, hport]
      decide
    refine ⟨by simp [smtpTransporterOpts, hs], by simp [smtpTransporterOpts, hs], ?_, ?_⟩ <;>
      simp [smtpConnect, smtpTransporterOpts, hs]

/-- Witness for the amended C6 at concrete configurations: port 465 gives
implicit TLS; port 587 with the flag unset gives STARTTLS-before-auth, and
a failed upgrade aborts with no authentication. -/
theorem C6_witness :
    (smtpTransporterOpts ⟨"", "", "smtp.gmail.com", 465, none, "u", "p",
        "f@x.com", "t@x.com"⟩).secure = true ∧
    smtpConnect (smtpTransporterOpts ⟨"", "", "smtp.gmail.com", 587, none, "u", "p",
        "f@x.com", "t@x.com"⟩) true = .starttlsThenAuth ∧
    smtpConnect (smtpTransporterOpts ⟨"", "", "smtp.gmail.com", 587, none, "u", "p",
        "f@x.com", "t@x.com"⟩) false = .failedNoAuth :=
  ⟨((C6_smtp_security_mode ⟨"", "", "smtp.gmail.com", 465, none, "u", "p",
      "f@x.com", "t@x.com"⟩).1 rfl).1,
   ((C6_smtp_security_mode ⟨"", "", "smtp.gmail.com", 587, none, "u", "p",
      "f@x.com", "t@x.com"⟩).2 rfl (by decide)).2.2.1,
   ((C6_smtp_security_mode ⟨"", "", "smtp.gmail.com", 587, none, "u", "p",
      "f@x.com", "t@x.com"⟩).2 rfl (by decide)).2.2.2⟩

/-- **C7**: a send through the SendGrid adapter succeeds exactly when the
provider's HTTP response has a 2xx status, and on any non-2xx status it
fails with a reason carrying the status code and the response body. -/
theorem C7_sendgrid_2xx (r : HttpResp) :
    ((sendWithSendGrid r = .ok ()) ↔ (200 ≤ r.status ∧ r.status ≤ 299)) ∧
    (¬(200 ≤ r.status ∧ r.status ≤ 299) →
      sendWithSendGrid r = .error ("SendGrid " ++ toString r.status ++ ": " ++ r.body)) := by
  have hiff : respOk r = true ↔ (200 ≤ r.status ∧ r.status ≤ 299) := by
    simp [respOk]
  by_cases h : respOk r = true
  · refine ⟨?_, fun hc => absurd (hiff.mp h) hc⟩
    simp [sendWithSendGrid, h, hiff.mp h]
  · have h2 : ¬(200 ≤ r.status ∧ r.status ≤ 299) := fun hc => h (hiff.mpr hc)
    refine ⟨?_, fun _ => ?_⟩ <;> simp [sendWithSendGrid, h, h2]

/-- Witness for C7: a 202 response is a success; a 403 response with body
`Forbidden` yields the failure reason `SendGrid 403: Forbidden`. -/
theorem C7_witness :
    sendWithSendGrid ⟨202, ""⟩ = .ok () ∧
    sendWithSendGrid ⟨403, "Forbidden"⟩ = .error "SendGrid 403: Forbidden" :=
  ⟨(C7_sendgrid_2xx ⟨202, ""⟩).1.mpr (by decide),
   (C7_sendgrid_2xx ⟨403, "Forbidden"⟩).2 (by decide)⟩

/-- **C8**: a valid contact request issues exactly one send attempt,
addressed to the configured operator inbox, with the submitted message
placed verbatim inside the preformatted block and the subject defaulting
to "General Inquiry" when the optional subject field is absent. -/
theorem C8_contact_single_send (c : EnvConfig) (net : OutboundMessage → NetEnv)
    (g : ContactFields) (h1 : truthy g.name = true) (h2 : truthy g.email = true)
    (h3 : truthy g.message = true) :
    (contactHandler c net (.obj g)).sends = [contactMsg c g] ∧
    (contactMsg c g).to = .str c.mailTo ∧
    (g.subject = .undefined →
      (contactMsg c g).subject = .str "Contact Form: General Inquiry") ∧
    ∃ p q, (contactMsg c g).html =
      p ++ ("<pre style=\"white-space:pre-wrap\">" ++ jsToString g.message ++ "</pre>") ++ q := by
  refine ⟨?_, rfl, ?_, ⟨_, _, rfl⟩⟩
  · rcases hr : sendEmail c (net (contactMsg c g)) with e | u <;>
      simp [contactHandler, getFields, h1, h2, h3, hr]
  · intro hs
    have hd : contactSubjectDisplay g = "General Inquiry" := by
      simp [contactSubjectDisplay, hs, truthy]
    simp [contactMsg, hd]

/-- Witness for C8: Bob's contact request (no subject) issues one message
to the operator inbox with the default subject and the text in the
preformatted block. -/
theorem C8_witness :
    (contactHandler cfgSG netOK (.obj bobBody)).sends = [contactMsg cfgSG bobBody] ∧
    (contactMsg cfgSG bobBody).to = .str cfgSG.mailTo ∧
    (contactMsg cfgSG bobBody).subject = .str "Contact Form: General Inquiry" ∧
    ∃ p q, (contactMsg cfgSG bobBody).html =
      p ++ ("<pre style=\"white-space:pre-wrap\">" ++ jsToString bobBody.message ++ "</pre>") ++ q :=
  ⟨(C8_contact_single_send cfgSG netOK bobBody rfl rfl rfl).1,
   (C8_contact_single_send cfgSG netOK bobBody rfl rfl rfl).2.1,
   (C8_contact_single_send cfgSG netOK bobBody rfl rfl rfl).2.2.1 rfl,
   (C8_contact_single_send cfgSG netOK bobBody rfl rfl rfl).2.2.2⟩

/-- **C9**: for a valid reservation request the notes value is
`specialRequests ?? message ?? ''`: the `specialRequests` field when it is
given, else the generic `message` field when that is given, else the empty
string when both are absent. -/
theorem C9_notes_derivation (f : ReservationFields)
    (_h1 : truthy f.name = true) (_h2 : truthy f.email = true)
    (_h3 : truthy f.phone = true) (_h4 : truthy f.date = true)
    (_h5 : truthy f.time = true) (_h6 : truthy f.guests = true) :
    (isNullish f.specialRequests = false → notesOf f = f.specialRequests) ∧
    (f.specialRequests = .undefined → isNullish f.message = false →
      notesOf f = f.message) ∧
    (f.specialRequests = .undefined → f.message = .undefined →
      notesOf f = .str "") := by
  refine ⟨?_, ?_, ?_⟩ <;> intros <;> simp_all [notesOf, isNullish]

/-- Witness for C9: with both fields absent the notes are empty; with only
`message` given they are the message; with `specialRequests` given they
are the special requests. -/
theorem C9_witness :
    notesOf annBody = .str "" ∧
    notesOf { annBody with message := .str "near window" } = .str "near window" ∧
    notesOf { annBody with specialRequests := .str "vegan" } = .str "vegan" :=
  ⟨(C9_notes_derivation annBody rfl rfl rfl rfl rfl (by decide)).2.2 rfl rfl,
   (C9_notes_derivation { annBody with message := .str "near window" }
      rfl rfl rfl rfl rfl (by decide)).2.1 rfl rfl,
   (C9_notes_derivation { annBody with specialRequests := .str "vegan" }
      rfl rfl rfl rfl rfl (by decide)).1 rfl⟩

/-- **C10**: validation is by truthiness, not key existence — a reservation
body whose required fields are all present but where some field is falsy
(for example `guests = 0` or an empty name) is rejected 400 with
`'Missing required fields'`, and an absent or non-object body is rejected
the same way rather than erroring. -/
theorem C10_truthiness_validation :
    (∀ (c : EnvConfig) (fmt : JSValue → String) (now : Nat)
      (net : OutboundMessage → NetEnv) (f : ReservationFields),
      (f.name ≠ .undefined ∧ f.email ≠ .undefined ∧ f.phone ≠ .undefined ∧
        f.date ≠ .undefined ∧ f.time ≠ .undefined ∧ f.guests ≠ .undefined) →
      (truthy f.name = false ∨ truthy f.email = false ∨ truthy f.phone = false ∨
        truthy f.date = false ∨ truthy f.time = false ∨ truthy f.guests = false) →
      reservationHandler c fmt now net (.obj f) =
        ⟨⟨400, false, "Missing required fields", none⟩, []⟩) ∧
    (∀ (c : EnvConfig) (fmt : JSValue → String) (now : Nat)
      (net : OutboundMessage → NetEnv),
      reservationHandler c fmt now net .missing =
        ⟨⟨400, false, "Missing required fields", none⟩, []⟩ ∧
      ∀ v : JSValue, reservationHandler c fmt now net (.primitive v) =
        ⟨⟨400, false, "Missing required fields", none⟩, []⟩) := by
  constructor
  · intro c fmt now net f _ hfalsy
    rcases hfalsy with h | h | h | h | h | h <;>
      simp [reservationHandler, getFields, h]
  · intro c fmt now net
    exact ⟨rfl, fun v => rfl⟩

/-- Witness for C10: all fields present but `guests = 0` is rejected 400
with no sends; so is an absent body. -/
theorem C10_witness :
    reservationHandler cfgSG fmtD 7 netOK (.obj { annBody with guests := .num 0 }) =
      ⟨⟨400, false, "Missing required fields", none⟩, []⟩ ∧
    reservationHandler cfgSG fmtD 7 netOK .missing =
      ⟨⟨400, false, "Missing required fields", none⟩, []⟩ :=
  ⟨C10_truthiness_validation.1 cfgSG fmtD 7 netOK _
      ⟨by decide, by decide, by decide, by decide, by decide, by decide⟩
      (Or.inr (Or.inr (Or.inr (Or.inr (Or.inr (by decide)))))),
   (C10_truthiness_validation.2 cfgSG fmtD 7 netOK).1⟩

end Akir
